import Mathlib

/-!
Shallow embedding of the SubscriptionAggregator service
(packages `model`, `repository`, `service`, `handler`, plus the
`migrations/001_init.sql` table constraints), together with theorems
settling the specification claims.

Modelling conventions:
- UUIDs are modelled as natural numbers (only equality is used by the code).
- Instants (`DATE` / `TIMESTAMP` values, `time.Time`) are modelled as
  integers (only ordering is used by the code).
- The database table `subscriptions` is a list of rows; the SQL statements
  executed by the repository are embedded as pure functions on that list.
- Go errors are an inductive type: sentinel errors (`model.ErrNotFound`,
  `sql.ErrNoRows`), postgres constraint-violation errors, fresh errors from
  `errors.New` / `fmt.Errorf` without `%w`, and wrapping via
  `fmt.Errorf("...: %w", err)`.  `errors.Is` unwraps the `%w` chain and
  compares by identity, which the derived decidable equality models because
  distinct constructor applications are distinct values.
-/

namespace SubAgg

/-- UUIDs are modelled as naturals; the code only ever compares them for equality. -/
abbrev UUID := Nat

/-- Instants are modelled as integers; the code only ever compares them. -/
abbrev Time := Int

/-- Embeds `model.Subscription` together with the `created_at` column of the
`subscriptions` table (the Go struct omits it; the table stores it). -/
structure Subscription where
  id : UUID
  serviceName : String
  price : Int
  userId : UUID
  startDate : Time
  endDate : Option Time
  createdAt : Time
  deriving Repr, DecidableEq

/-- Embeds `model.SubscriptionFilter`: four optional dimensions. -/
structure SubscriptionFilter where
  userId : Option UUID
  serviceName : Option String
  fromDate : Option Time
  toDate : Option Time
  deriving Repr, DecidableEq

/-- Go error values reachable in the embedded code.  `errNotFound` is the
sentinel `model.ErrNotFound`; `sqlErrNoRows` is `sql.ErrNoRows`;
`pqConstraint c` is the postgres error for violating constraint `c`;
`newError m` is `errors.New(m)` / `fmt.Errorf` without `%w` (identity distinct
from every sentinel even when the message coincides); `wrapf ctx e` is
`fmt.Errorf(ctx ++ "%w", e)`. -/
inductive GoError where
  | errNotFound : GoError
  | sqlErrNoRows : GoError
  | pqConstraint : String → GoError
  | newError : String → GoError
  | wrapf : String → GoError → GoError
  deriving Repr, DecidableEq

instance : BEq GoError := instBEqOfDecidableEq

/-- Embeds `errors.Is(e, target)`: identity comparison along the `%w`
unwrap chain. -/
def errorsIs : GoError → GoError → Bool
  | GoError.wrapf ctx inner, target =>
      (GoError.wrapf ctx inner == target) || errorsIs inner target
  | e, target => e == target

/-- The `Error()` string of an embedded Go error. -/
def errorMessage : GoError → String
  | GoError.errNotFound => "not found"
  | GoError.sqlErrNoRows => "sql: no rows in result set"
  | GoError.pqConstraint c => "pq: violates constraint " ++ c
  | GoError.newError m => m
  | GoError.wrapf ctx inner => ctx ++ errorMessage inner

/-- True when the error chain bottoms out in a postgres constraint
violation (price check or primary-key uniqueness). -/
def isConstraintViolation : GoError → Bool
  | GoError.pqConstraint _ => true
  | GoError.wrapf _ inner => isConstraintViolation inner
  | _ => false

namespace postgresSubscriptionRepo

/-- Embeds the shared `WHERE` clause of `List` and `GetTotalCost`:
`($1::uuid IS NULL OR user_id = $1) AND ($2::text IS NULL OR service_name = $2)
AND ($3::timestamp IS NULL OR start_date >= $3) AND
($4::timestamp IS NULL OR (end_date IS NULL OR end_date <= $4))`. -/
def matchesFilter (filter : SubscriptionFilter) (sub : Subscription) : Bool :=
  (match filter.userId with
    | none => true
    | some u => sub.userId == u) &&
  (match filter.serviceName with
    | none => true
    | some s => sub.serviceName == s) &&
  (match filter.fromDate with
    | none => true
    | some d => decide (d ≤ sub.startDate)) &&
  (match filter.toDate with
    | none => true
    | some d =>
        match sub.endDate with
        | none => true
        | some e => decide (e ≤ d))

/-- Embeds `postgresSubscriptionRepo.Create`: `INSERT INTO subscriptions
(id, service_name, price, user_id, start_date, end_date) VALUES (...)`.
The Go code itself performs no validation; the failure cases come from the
table constraints in `migrations/001_init.sql`: `CHECK (price > 0)` and
`id UUID PRIMARY KEY`.  `created_at` gets the table default `NOW()`,
passed in as `now`.  On error nothing is inserted. -/
def Create (now : Time) (sub : Subscription) (db : List Subscription) :
    Except GoError (List Subscription) :=
  if sub.price ≤ 0 then
    Except.error (GoError.wrapf "repository.postgresql.Create: "
      (GoError.pqConstraint "subscriptions_price_check"))
  else if db.any (fun r => r.id == sub.id) then
    Except.error (GoError.wrapf "repository.postgresql.Create: "
      (GoError.pqConstraint "subscriptions_pkey"))
  else
    Except.ok (db ++ [{ sub with createdAt := now }])

/-- Embeds `postgresSubscriptionRepo.GetByID`: `SELECT ... WHERE id = $1`
scanned with `QueryRowContext`; with no matching row `Scan` yields
`sql.ErrNoRows`, which the method wraps with the op string (it is NOT
mapped to `model.ErrNotFound`). -/
def GetByID (id : UUID) (db : List Subscription) : Except GoError Subscription :=
  match db.find? (fun r => r.id == id) with
  | some sub => Except.ok sub
  | none => Except.error
      (GoError.wrapf "repository.postgresql.GetByID: " GoError.sqlErrNoRows)

/-- Embeds `postgresSubscriptionRepo.Update`: `UPDATE subscriptions SET
service_name, price, user_id, start_date, end_date WHERE id = $1`; when
`RowsAffected() == 0` it returns the fresh error `fmt.Errorf("not found")`
(NOT the sentinel `model.ErrNotFound`). -/
def Update (sub : Subscription) (db : List Subscription) :
    Except GoError (List Subscription) :=
  let updated := db.map (fun r =>
    if r.id == sub.id then
      { r with
        serviceName := sub.serviceName
        price := sub.price
        userId := sub.userId
        startDate := sub.startDate
        endDate := sub.endDate }
    else r)
  let rowsAffected := db.countP (fun r => r.id == sub.id)
  if rowsAffected == 0 then Except.error (GoError.newError "not found")
  else Except.ok updated

/-- Embeds `postgresSubscriptionRepo.Delete`: `DELETE FROM subscriptions
WHERE id = $1`; when `RowsAffected() == 0` it returns a fresh
`fmt.Errorf("%s, subscription not found", op)`. -/
def Delete (id : UUID) (db : List Subscription) :
    Except GoError (List Subscription) :=
  let remaining := db.filter (fun r => !(r.id == id))
  let rowsAffected := db.countP (fun r => r.id == id)
  if rowsAffected == 0 then
    Except.error
      (GoError.newError "repository.postgresql.Delete, subscription not found")
  else Except.ok remaining

/-- Embeds `postgresSubscriptionRepo.List`: `SELECT ... FROM subscriptions
WHERE <matchesFilter>`, rows returned in table order. -/
def ListSubs (filter : SubscriptionFilter) (db : List Subscription) :
    List Subscription :=
  db.filter (matchesFilter filter)

/-- Embeds `postgresSubscriptionRepo.GetTotalCost`:
`SELECT COALESCE(SUM(price), 0) FROM subscriptions WHERE <matchesFilter>` —
an aggregate over the table rows satisfying the same `WHERE` clause as
`List`, with the empty sum coalesced to 0. -/
def GetTotalCost (filter : SubscriptionFilter) (db : List Subscription) : Int :=
  db.foldr (fun r acc => if matchesFilter filter r then r.price + acc else acc) 0

end postgresSubscriptionRepo

namespace subscriptionService

/-- Embeds `subscriptionService.CreateSubscription`: builds the record with a
freshly generated id (`uuid.New()`, passed in as `newId`), delegates to the
repository and wraps any error. -/
def CreateSubscription (newId : UUID) (now : Time) (serviceName : String)
    (price : Int) (userId : UUID) (startDate : Time) (endDate : Option Time)
    (db : List Subscription) :
    Except GoError (Subscription × List Subscription) :=
  let sub : Subscription :=
    { id := newId, serviceName := serviceName, price := price,
      userId := userId, startDate := startDate, endDate := endDate,
      createdAt := 0 }
  match postgresSubscriptionRepo.Create now sub db with
  | Except.ok db2 => Except.ok (sub, db2)
  | Except.error e =>
      Except.error (GoError.wrapf "failed to create subscription: " e)

/-- Embeds `subscriptionService.GetSubscription`: delegates to
`repo.GetByID` and wraps any error with `%w` (context only). -/
def GetSubscription (id : UUID) (db : List Subscription) :
    Except GoError Subscription :=
  match postgresSubscriptionRepo.GetByID id db with
  | Except.ok sub => Except.ok sub
  | Except.error e =>
      Except.error (GoError.wrapf "failed to get subscription: " e)

/-- Embeds `subscriptionService.UpdateSubscription`: delegates to
`repo.Update` and wraps any error with `%w`. -/
def UpdateSubscription (sub : Subscription) (db : List Subscription) :
    Except GoError (List Subscription) :=
  match postgresSubscriptionRepo.Update sub db with
  | Except.ok db2 => Except.ok db2
  | Except.error e =>
      Except.error (GoError.wrapf "failed to update subscription: " e)

/-- Embeds `subscriptionService.DeleteSubscription`: delegates to
`repo.Delete` and wraps any error with `%w`. -/
def DeleteSubscription (id : UUID) (db : List Subscription) :
    Except GoError (List Subscription) :=
  match postgresSubscriptionRepo.Delete id db with
  | Except.ok db2 => Except.ok db2
  | Except.error e =>
      Except.error (GoError.wrapf "failed to delete subscription: " e)

/-- Embeds `subscriptionService.ListSubscriptions`: delegates to `repo.List`. -/
def ListSubscriptions (filter : SubscriptionFilter) (db : List Subscription) :
    List Subscription :=
  postgresSubscriptionRepo.ListSubs filter db

/-- Embeds `subscriptionService.GetTotalCost`: delegates to
`repo.GetTotalCost`. -/
def GetTotalCost (filter : SubscriptionFilter) (db : List Subscription) : Int :=
  postgresSubscriptionRepo.GetTotalCost filter db

end subscriptionService

/-- An HTTP response as produced by the handlers: status code, the
`Content-Type` header set by `respondWithJSON`, and the exact bytes the
handler writes to the response body. -/
structure HttpResponse where
  status : Nat
  contentType : String
  body : String
  deriving Repr, DecidableEq

/-- JSON payloads the handlers pass to `respondWithJSON`. -/
inductive JsonValue where
  | jnull : JsonValue
  | jerrObj : String → JsonValue
  | jsub : Subscription → JsonValue
  | jsubList : List Subscription → JsonValue
  | jtotalObj : Int → JsonValue
  deriving Repr, DecidableEq

/-- JSON rendering of one subscription record. -/
def encodeSubscription (sub : Subscription) : String :=
  "\x7b\"id\":" ++ toString sub.id ++
  ",\"service_name\":\"" ++ sub.serviceName ++
  "\",\"price\":" ++ toString sub.price ++
  ",\"user_id\":" ++ toString sub.userId ++
  ",\"start_date\":" ++ toString sub.startDate ++
  (match sub.endDate with
    | none => ""
    | some e => ",\"end_date\":" ++ toString e) ++ "\x7d"

/-- JSON rendering of a list of subscription records. -/
def encodeSubList : List Subscription → String
  | [] => ""
  | [sub] => encodeSubscription sub
  | sub :: rest => encodeSubscription sub ++ "," ++ encodeSubList rest

/-- Embeds `json.NewEncoder(w).Encode(payload)`: the encoder serialises the
payload and appends a newline; in particular `Encode(nil)` writes the five
bytes `null` plus newline. -/
def encodeJSON : JsonValue → String
  | JsonValue.jnull => "null\n"
  | JsonValue.jerrObj msg => "\x7b\"error\":\"" ++ msg ++ "\"\x7d\n"
  | JsonValue.jsub sub => encodeSubscription sub ++ "\n"
  | JsonValue.jsubList subs => "[" ++ encodeSubList subs ++ "]\n"
  | JsonValue.jtotalObj total => "\x7b\"total\":" ++ toString total ++ "\x7d\n"

/-- Embeds `respondWithJSON`: sets `Content-Type: application/json`, writes
the status code, then encodes the payload into the body. -/
def respondWithJSON (code : Nat) (payload : JsonValue) : HttpResponse :=
  { status := code, contentType := "application/json",
    body := encodeJSON payload }

/-- Embeds `respondWithError`: `respondWithJSON` of `{"error": message}`. -/
def respondWithError (code : Nat) (message : String) : HttpResponse :=
  respondWithJSON code (JsonValue.jerrObj message)

/-- Raw query-string parameters of a list / total-cost request
(`r.URL.Query().Get` returns the empty string for an absent parameter). -/
structure Query where
  userIdParam : String
  serviceNameParam : String
  fromDateParam : String
  toDateParam : String
  deriving Repr, DecidableEq

/-- Embeds `getUUIDQueryParam`: empty value means unset; a value that
`uuid.Parse` rejects (`uuidParse` returns `none`) is also treated as unset. -/
def getUUIDQueryParam (uuidParse : String → Option UUID) (val : String) :
    Option UUID :=
  if val == "" then none
  else
    match uuidParse val with
    | none => none
    | some id => some id

/-- Embeds `getStringQueryParam`: empty value means unset. -/
def getStringQueryParam (val : String) : Option String :=
  if val == "" then none else some val

/-- Embeds `getTimeQueryParam`: empty value means unset; a value that
`time.Parse(time.RFC3339, ...)` rejects (`timeParse` returns `none`) is also
treated as unset. -/
def getTimeQueryParam (timeParse : String → Option Time) (val : String) :
    Option Time :=
  if val == "" then none
  else
    match timeParse val with
    | none => none
    | some t => some t

namespace SubscriptionHandler

/-- Embeds `SubscriptionHandler.GetSubscription` after the id path variable
has parsed: delegates to the service; an error satisfying
`errors.Is(err, model.ErrNotFound)` maps to 404, anything else to 500. -/
def GetSubscription (id : UUID) (db : List Subscription) : HttpResponse :=
  match subscriptionService.GetSubscription id db with
  | Except.ok sub => respondWithJSON 200 (JsonValue.jsub sub)
  | Except.error e =>
      if errorsIs e GoError.errNotFound then
        respondWithError 404 "subscription not found"
      else
        respondWithError 500 (errorMessage e)

/-- Embeds `SubscriptionHandler.UpdateSubscription` after the id path
variable has parsed and the body has decoded. -/
def UpdateSubscription (sub : Subscription) (db : List Subscription) :
    HttpResponse × List Subscription :=
  match subscriptionService.UpdateSubscription sub db with
  | Except.ok db2 => (respondWithJSON 200 (JsonValue.jsub sub), db2)
  | Except.error e =>
      if errorsIs e GoError.errNotFound then
        (respondWithError 404 "subscription not found", db)
      else
        (respondWithError 500 (errorMessage e), db)

/-- Embeds `SubscriptionHandler.DeleteSubscription` after the id path
variable has parsed: on success it calls `respondWithJSON(w, 204, nil)`. -/
def DeleteSubscription (id : UUID) (db : List Subscription) :
    HttpResponse × List Subscription :=
  match subscriptionService.DeleteSubscription id db with
  | Except.ok db2 => (respondWithJSON 204 JsonValue.jnull, db2)
  | Except.error e =>
      if errorsIs e GoError.errNotFound then
        (respondWithError 404 "subscription not found", db)
      else
        (respondWithError 500 (errorMessage e), db)

/-- Embeds the filter construction shared by `ListSubscriptions` and
`GetTotalCost`: each dimension via its query-parameter helper. -/
def buildFilter (uuidParse : String → Option UUID)
    (timeParse : String → Option Time) (q : Query) : SubscriptionFilter :=
  { userId := getUUIDQueryParam uuidParse q.userIdParam
    serviceName := getStringQueryParam q.serviceNameParam
    fromDate := getTimeQueryParam timeParse q.fromDateParam
    toDate := getTimeQueryParam timeParse q.toDateParam }

/-- Embeds `SubscriptionHandler.ListSubscriptions`: builds the filter from
the query parameters and responds 200 with the matching records. -/
def ListSubscriptions (uuidParse : String → Option UUID)
    (timeParse : String → Option Time) (q : Query) (db : List Subscription) :
    HttpResponse :=
  let filter := buildFilter uuidParse timeParse q
  respondWithJSON 200
    (JsonValue.jsubList (subscriptionService.ListSubscriptions filter db))

/-- Embeds `SubscriptionHandler.GetTotalCost`: builds the filter from the
query parameters and responds 200 with `{"total": total}`. -/
def GetTotalCost (uuidParse : String → Option UUID)
    (timeParse : String → Option Time) (q : Query) (db : List Subscription) :
    HttpResponse :=
  let filter := buildFilter uuidParse timeParse q
  respondWithJSON 200
    (JsonValue.jtotalObj (subscriptionService.GetTotalCost filter db))

end SubscriptionHandler

/-- Holds when `f2` is obtained from `f` by setting exactly one
previously-unset filter dimension to a concrete value. -/
def addsOneConstraint (f f2 : SubscriptionFilter) : Prop :=
  (f.userId = none ∧ ∃ u, f2 = { f with userId := some u }) ∨
  (f.serviceName = none ∧ ∃ s, f2 = { f with serviceName := some s }) ∨
  (f.fromDate = none ∧ ∃ d, f2 = { f with fromDate := some d }) ∨
  (f.toDate = none ∧ ∃ d, f2 = { f with toDate := some d })

/-- Sample stored record: an open subscription (no end date). -/
def sub1 : Subscription :=
  { id := 1, serviceName := "Yandex Plus", price := 599, userId := 10,
    startDate := 100, endDate := none, createdAt := 50 }

/-- Sample stored record: a closed subscription. -/
def sub2 : Subscription :=
  { id := 2, serviceName := "Netflix", price := 300, userId := 11,
    startDate := 120, endDate := some 200, createdAt := 60 }

/-- Sample update payload targeting the id of `sub1`. -/
def subX : Subscription :=
  { id := 1, serviceName := "Netflix", price := 300, userId := 12,
    startDate := 110, endDate := some 400, createdAt := 999 }

/-- Sample table contents. -/
def dbC : List Subscription := [sub1, sub2]

/-- The table contents after `Update subX dbC` succeeds: the row with id 1
has its mutable fields replaced (id and `created_at` kept), the other row
untouched. -/
def dbC2 : List Subscription :=
  [{ id := 1, serviceName := "Netflix", price := 300, userId := 12,
     startDate := 110, endDate := some 400, createdAt := 50 }, sub2]

/-- Concrete stand-in for `uuid.Parse`: accepts one known token. -/
def uuidParseStub : String → Option UUID :=
  fun s => if s == "u1" then some 10 else none

/-- Concrete stand-in for `time.Parse(time.RFC3339, -)`: accepts one known
timestamp text. -/
def timeParseStub : String → Option Time :=
  fun s => if s == "2025-01-01T00:00:00Z" then some 100 else none

/-- A query whose `from_date` fails to parse and whose `to_date` is empty. -/
def qBadDates : Query :=
  { userIdParam := "u1", serviceNameParam := "Yandex Plus",
    fromDateParam := "not-a-date", toDateParam := "" }

/-- A query whose non-empty `user_id` fails UUID parsing. -/
def qBadUser : Query :=
  { userIdParam := "not-a-uuid", serviceNameParam := "",
    fromDateParam := "2025-01-01T00:00:00Z", toDateParam := "" }

/-- Sample filter constraining only the owner dimension. -/
def fUser : SubscriptionFilter :=
  { userId := some 10, serviceName := none, fromDate := none, toDate := none }

/-- The empty filter: no dimension set. -/
def fNone : SubscriptionFilter :=
  { userId := none, serviceName := none, fromDate := none, toDate := none }

end SubAgg

/-! ## Theorems settling the claims -/

open SubAgg

/-- Characterisation of the shared `WHERE` clause: the boolean filter match
holds iff each set clause holds (absent clauses vacuously true). -/
theorem matchesFilter_true_iff (f : SubscriptionFilter) (r : Subscription) :
    postgresSubscriptionRepo.matchesFilter f r = true ↔
      ((∀ u, f.userId = some u → r.userId = u) ∧
       (∀ s, f.serviceName = some s → r.serviceName = s) ∧
       (∀ d, f.fromDate = some d → d ≤ r.startDate) ∧
       (∀ d, f.toDate = some d → ∀ e, r.endDate = some e → e ≤ d)) := by
  unfold postgresSubscriptionRepo.matchesFilter
  rcases f with ⟨fu, fs, fd, ft⟩
  rcases fu with _ | u <;> rcases fs with _ | s <;> rcases fd with _ | d <;>
    rcases ft with _ | t <;> rcases he : r.endDate with _ | e <;>
      simp [he, beq_iff_eq, and_assoc]

/-- C1: a stored record is returned by `List(filter)` iff all set clauses of
the filter hold under logical AND: the owner clause when `user_id` is set,
exact (case-sensitive) service-name equality when `service_name` is set,
`start_date >= from_date` when `from_date` is set, and, when `to_date` is
set, either the record has no `end_date` (open subscription) or
`end_date <= to_date`. -/
theorem list_returns_iff_all_set_clauses_hold
    (db : List Subscription) (f : SubscriptionFilter) (r : Subscription)
    (hmem : r ∈ db) :
    r ∈ postgresSubscriptionRepo.ListSubs f db ↔
      ((∀ u, f.userId = some u → r.userId = u) ∧
       (∀ s, f.serviceName = some s → r.serviceName = s) ∧
       (∀ d, f.fromDate = some d → d ≤ r.startDate) ∧
       (∀ d, f.toDate = some d → ∀ e, r.endDate = some e → e ≤ d)) := by
  unfold postgresSubscriptionRepo.ListSubs
  rw [List.mem_filter, matchesFilter_true_iff]
  simp [hmem]

/-- Witness for C1: evaluates the characterisation on a concrete record and
filter. -/
theorem list_returns_iff_all_set_clauses_hold_witness :
    sub1 ∈ postgresSubscriptionRepo.ListSubs fUser dbC ↔
      ((∀ u, fUser.userId = some u → sub1.userId = u) ∧
       (∀ s, fUser.serviceName = some s → sub1.serviceName = s) ∧
       (∀ d, fUser.fromDate = some d → d ≤ sub1.startDate) ∧
       (∀ d, fUser.toDate = some d → ∀ e, sub1.endDate = some e → e ≤ d)) :=
  list_returns_iff_all_set_clauses_hold dbC fUser sub1 (by simp [dbC])

/-- Unfolding equation for the aggregate over a cons cell. -/
theorem getTotalCost_cons (f : SubscriptionFilter) (r : Subscription)
    (db : List Subscription) :
    postgresSubscriptionRepo.GetTotalCost f (r :: db) =
      if postgresSubscriptionRepo.matchesFilter f r then
        r.price + postgresSubscriptionRepo.GetTotalCost f db
      else postgresSubscriptionRepo.GetTotalCost f db := rfl

/-- C2: for every filter and table, `GetTotalCost(f)` equals the sum of the
prices of the records returned by `List(f)`; in particular, when no record
matches, the aggregate is the integer 0 (never an error or null — the SQL
coalesces the empty sum to 0 and the function returns a plain integer). -/
theorem totalCost_eq_sum_of_list (f : SubscriptionFilter)
    (db : List Subscription) :
    postgresSubscriptionRepo.GetTotalCost f db =
      ((postgresSubscriptionRepo.ListSubs f db).map Subscription.price).sum ∧
    (postgresSubscriptionRepo.ListSubs f db = [] →
      postgresSubscriptionRepo.GetTotalCost f db = 0) := by
  have key : postgresSubscriptionRepo.GetTotalCost f db =
      ((postgresSubscriptionRepo.ListSubs f db).map Subscription.price).sum := by
    induction db with
    | nil => rfl
    | cons r rest ih =>
        rw [getTotalCost_cons]
        unfold postgresSubscriptionRepo.ListSubs
        rw [List.filter_cons]
        by_cases hm : postgresSubscriptionRepo.matchesFilter f r
        · simp only [hm, if_true, List.map_cons, List.sum_cons]
          rw [ih]
          rfl
        · simp only [Bool.not_eq_true] at hm
          simp only [hm, if_false, Bool.false_eq_true]
          rw [ih]
          rfl
  refine ⟨key, fun hempty => ?_⟩
  rw [key, hempty]
  rfl

/-- Witness for C2: evaluates the aggregate identity on a concrete table and
filter. -/
theorem totalCost_eq_sum_of_list_witness :
    postgresSubscriptionRepo.GetTotalCost fUser dbC =
      ((postgresSubscriptionRepo.ListSubs fUser dbC).map Subscription.price).sum :=
  (totalCost_eq_sum_of_list fUser dbC).1

/-- C3: the spec says `getByID` fails with the NotFound kind on a missing id
and the service propagates it so the transport still satisfies
`errors.Is(err, model.ErrNotFound)` and maps to 404.  The code instead wraps
`sql.ErrNoRows` and never introduces the sentinel, so the surfaced error
fails the NotFound test and the handler answers 500: evaluated here on a
missing id over the empty table. -/
theorem getSubscription_missing_id_maps_to_500 :
    subscriptionService.GetSubscription 7 [] =
      Except.error (GoError.wrapf "failed to get subscription: "
        (GoError.wrapf "repository.postgresql.GetByID: " GoError.sqlErrNoRows)) ∧
    errorsIs
      (GoError.wrapf "failed to get subscription: "
        (GoError.wrapf "repository.postgresql.GetByID: " GoError.sqlErrNoRows))
      GoError.errNotFound = false ∧
    (SubscriptionHandler.GetSubscription 7 []).status = 500 ∧
    (SubscriptionHandler.GetSubscription 7 []).status ≠ 404 := by
  refine ⟨rfl, rfl, rfl, by decide⟩

/-- C4: a create whose price is ≤ 0, or whose identifier already exists in
the table, fails with a constraint-violation error (from
`CHECK (price > 0)` / the primary key); the `Except.error` return carries no
updated table, so the stored record set is unchanged and nothing is
persisted. -/
theorem create_fails_on_nonpositive_price_or_duplicate_id
    (now : Time) (sub : Subscription) (db : List Subscription)
    (h : sub.price ≤ 0 ∨ ∃ r ∈ db, r.id = sub.id) :
    ∃ e, postgresSubscriptionRepo.Create now sub db = Except.error e ∧
      isConstraintViolation e = true := by
  by_cases hp : sub.price ≤ 0
  · exact ⟨GoError.wrapf "repository.postgresql.Create: "
      (GoError.pqConstraint "subscriptions_price_check"),
      by simp [postgresSubscriptionRepo.Create, hp], rfl⟩
  · rcases h with h | ⟨r, hr, hid⟩
    · exact absurd h hp
    · have hany : db.any (fun r => r.id == sub.id) = true :=
        List.any_eq_true.mpr ⟨r, hr, by simp [hid]⟩
      exact ⟨GoError.wrapf "repository.postgresql.Create: "
        (GoError.pqConstraint "subscriptions_pkey"),
        by simp [postgresSubscriptionRepo.Create, hp, hany], rfl⟩

/-- Witness for C4: a create with price 0 on the empty table fails with a
constraint violation. -/
theorem create_fails_on_nonpositive_price_or_duplicate_id_witness :
    ∃ e, postgresSubscriptionRepo.Create 0
        { id := 3, serviceName := "Yandex Plus", price := 0, userId := 10,
          startDate := 100, endDate := none, createdAt := 0 } [] =
        Except.error e ∧ isConstraintViolation e = true :=
  create_fails_on_nonpositive_price_or_duplicate_id 0
    { id := 3, serviceName := "Yandex Plus", price := 0, userId := 10,
      startDate := 100, endDate := none, createdAt := 0 } []
    (Or.inl (by decide))

/-- C5: setting one previously-unset filter dimension can only remove
matches: every record matching the strengthened filter matches the original,
hence `List` under the strengthened filter is a sublist-subset of `List`
under the original. -/
theorem matches_monotonic_under_added_constraint
    (f f2 : SubscriptionFilter) (hc : addsOneConstraint f f2) :
    (∀ r, postgresSubscriptionRepo.matchesFilter f2 r = true →
      postgresSubscriptionRepo.matchesFilter f r = true) ∧
    (∀ db, postgresSubscriptionRepo.ListSubs f2 db ⊆
      postgresSubscriptionRepo.ListSubs f db) := by
  have hmono : ∀ r, postgresSubscriptionRepo.matchesFilter f2 r = true →
      postgresSubscriptionRepo.matchesFilter f r = true := by
    intro r hm
    rw [matchesFilter_true_iff] at hm ⊢
    obtain ⟨h1, h2, h3, h4⟩ := hm
    rcases hc with ⟨hn, u, rfl⟩ | ⟨hn, s, rfl⟩ | ⟨hn, d, rfl⟩ | ⟨hn, d, rfl⟩ <;>
      exact ⟨by simp_all, by simp_all, by simp_all, by simp_all⟩
  refine ⟨hmono, fun db r hr => ?_⟩
  unfold postgresSubscriptionRepo.ListSubs at hr ⊢
  rw [List.mem_filter] at hr ⊢
  exact ⟨hr.1, hmono r hr.2⟩

/-- Witness for C5: strengthening the empty filter by the owner dimension. -/
theorem matches_monotonic_under_added_constraint_witness :
    (∀ r, postgresSubscriptionRepo.matchesFilter fUser r = true →
      postgresSubscriptionRepo.matchesFilter fNone r = true) ∧
    (∀ db, postgresSubscriptionRepo.ListSubs fUser db ⊆
      postgresSubscriptionRepo.ListSubs fNone db) :=
  matches_monotonic_under_added_constraint fNone fUser
    (Or.inl ⟨rfl, 10, rfl⟩)

/-- C6: the spec says update on a non-existent id fails with the NotFound
kind.  The state parts hold (no row is touched, nothing is created), but the
repository returns the fresh error `fmt.Errorf("not found")`, which is not
the sentinel `model.ErrNotFound`, so `errors.Is` fails and the handler
surfaces 500 instead of 404: evaluated on the empty table. -/
theorem update_missing_id_fresh_error_not_sentinel :
    postgresSubscriptionRepo.Update subX [] =
      Except.error (GoError.newError "not found") ∧
    errorsIs (GoError.newError "not found") GoError.errNotFound = false ∧
    (SubscriptionHandler.UpdateSubscription subX []).1.status = 500 ∧
    (SubscriptionHandler.UpdateSubscription subX []).2 = [] := by
  exact ⟨rfl, by decide, rfl, rfl⟩

/-- C7: a successful update replaces exactly the mutable fields of the rows
whose id matches (service name, price, user id, start date, end date), keeps
every row's id and `created_at`, and leaves every other row untouched; the
table keeps its length. -/
theorem update_success_frame (sub : Subscription) (db db2 : List Subscription)
    (h : postgresSubscriptionRepo.Update sub db = Except.ok db2) :
    db2.length = db.length ∧
    ∀ i (hi : i < db.length) (hi2 : i < db2.length),
      ((db2.get ⟨i, hi2⟩).id = (db.get ⟨i, hi⟩).id ∧
       (db2.get ⟨i, hi2⟩).createdAt = (db.get ⟨i, hi⟩).createdAt) ∧
      ((db.get ⟨i, hi⟩).id ≠ sub.id → db2.get ⟨i, hi2⟩ = db.get ⟨i, hi⟩) ∧
      ((db.get ⟨i, hi⟩).id = sub.id →
        (db2.get ⟨i, hi2⟩).serviceName = sub.serviceName ∧
        (db2.get ⟨i, hi2⟩).price = sub.price ∧
        (db2.get ⟨i, hi2⟩).userId = sub.userId ∧
        (db2.get ⟨i, hi2⟩).startDate = sub.startDate ∧
        (db2.get ⟨i, hi2⟩).endDate = sub.endDate) := by
  simp only [postgresSubscriptionRepo.Update] at h
  split at h
  · exact absurd h (by simp)
  · injection h with h2
    subst h2
    refine ⟨List.length_map db _, fun i hi hi2 => ?_⟩
    simp only [List.get_eq_getElem, List.getElem_map]
    by_cases hid : db[i].id = sub.id <;> simp [hid]

/-- Witness for C7: updating the row with id 1 in a concrete two-row table. -/
theorem update_success_frame_witness :
    dbC2.length = dbC.length ∧
    ∀ i (hi : i < dbC.length) (hi2 : i < dbC2.length),
      ((dbC2.get ⟨i, hi2⟩).id = (dbC.get ⟨i, hi⟩).id ∧
       (dbC2.get ⟨i, hi2⟩).createdAt = (dbC.get ⟨i, hi⟩).createdAt) ∧
      ((dbC.get ⟨i, hi⟩).id ≠ subX.id → dbC2.get ⟨i, hi2⟩ = dbC.get ⟨i, hi⟩) ∧
      ((dbC.get ⟨i, hi⟩).id = subX.id →
        (dbC2.get ⟨i, hi2⟩).serviceName = subX.serviceName ∧
        (dbC2.get ⟨i, hi2⟩).price = subX.price ∧
        (dbC2.get ⟨i, hi2⟩).userId = subX.userId ∧
        (dbC2.get ⟨i, hi2⟩).startDate = subX.startDate ∧
        (dbC2.get ⟨i, hi2⟩).endDate = subX.endDate) :=
  update_success_frame subX dbC dbC2 (by rfl)

/-- C8: for list and total-cost requests, a `from_date` or `to_date` query
parameter that is empty or rejected by the RFC3339 parser leaves that filter
dimension unset, and the request still succeeds with status 200 (date-parse
problems are never surfaced as an error). -/
theorem bad_date_params_treated_unset_and_request_succeeds
    (uuidParse : String → Option UUID) (timeParse : String → Option Time)
    (q : Query) (db : List Subscription) :
    ((q.fromDateParam = "" ∨ timeParse q.fromDateParam = none) →
      (SubscriptionHandler.buildFilter uuidParse timeParse q).fromDate = none) ∧
    ((q.toDateParam = "" ∨ timeParse q.toDateParam = none) →
      (SubscriptionHandler.buildFilter uuidParse timeParse q).toDate = none) ∧
    (SubscriptionHandler.ListSubscriptions uuidParse timeParse q db).status
      = 200 ∧
    (SubscriptionHandler.GetTotalCost uuidParse timeParse q db).status
      = 200 := by
  refine ⟨fun h => ?_, fun h => ?_, rfl, rfl⟩ <;>
    · simp only [SubscriptionHandler.buildFilter, getTimeQueryParam]
      rcases h with h | h <;> simp [h]

/-- Witness for C8: a concrete query with an unparseable `from_date` and an
empty `to_date`. -/
theorem bad_date_params_treated_unset_witness :
    (SubscriptionHandler.buildFilter uuidParseStub timeParseStub
      qBadDates).fromDate = none ∧
    (SubscriptionHandler.buildFilter uuidParseStub timeParseStub
      qBadDates).toDate = none ∧
    (SubscriptionHandler.ListSubscriptions uuidParseStub timeParseStub
      qBadDates dbC).status = 200 ∧
    (SubscriptionHandler.GetTotalCost uuidParseStub timeParseStub
      qBadDates dbC).status = 200 := by
  have h := bad_date_params_treated_unset_and_request_succeeds uuidParseStub
    timeParseStub qBadDates dbC
  exact ⟨h.1 (Or.inr rfl), h.2.1 (Or.inl rfl), h.2.2.1, h.2.2.2⟩

/-- C9 counterexample: on a successful delete the handler calls
`respondWithJSON(w, 204, nil)`, and `json.Encoder.Encode(nil)` writes the
five bytes `null` plus newline, so the body is not empty — refuting "empty
body (no bytes written to the response body)" at a concrete request (the
repository's own handler test asserts `w.Body.Len() == 5`). -/
theorem delete_success_response_body_not_empty :
    (SubscriptionHandler.DeleteSubscription 1 [sub1]).1.status = 204 ∧
    (SubscriptionHandler.DeleteSubscription 1 [sub1]).1.body ≠ "" := by
  exact ⟨rfl, by decide⟩

/-- C9 (amended): every successful DELETE responds with status 204 and a
body of exactly the JSON encoding of `nil` — the five bytes `null` plus
newline — written by `respondWithJSON`. -/
theorem delete_success_204_with_json_null_body
    (id : UUID) (db : List Subscription) (h : ∃ r ∈ db, r.id = id) :
    (SubscriptionHandler.DeleteSubscription id db).1 =
      { status := 204, contentType := "application/json",
        body := "null\n" } := by
  obtain ⟨r, hr, hid⟩ := h
  have hpos : 0 < db.countP (fun r => r.id == id) :=
    List.countP_pos_iff.mpr ⟨r, hr, by simp [hid]⟩
  have hne : db.countP (fun r => r.id == id) ≠ 0 := Nat.pos_iff_ne_zero.mp hpos
  simp [SubscriptionHandler.DeleteSubscription,
    subscriptionService.DeleteSubscription, postgresSubscriptionRepo.Delete,
    hne, respondWithJSON, encodeJSON]

/-- Witness for C9 (amended): deleting the record with id 1 from a concrete
one-row table. -/
theorem delete_success_204_with_json_null_body_witness :
    (SubscriptionHandler.DeleteSubscription 1 [sub1]).1 =
      { status := 204, contentType := "application/json", body := "null\n" } :=
  delete_success_204_with_json_null_body 1 [sub1] ⟨sub1, by simp, rfl⟩

/-- C10: a non-empty `user_id` query parameter that fails UUID parsing is
silently treated as unset: the owner dimension of the filter is `none`, the
list and total-cost responses are identical to those of the same request
with no `user_id` parameter at all (so they run against all owners), and
the request succeeds with 200 instead of being rejected. -/
theorem invalid_user_id_param_silently_unset
    (uuidParse : String → Option UUID) (timeParse : String → Option Time)
    (q : Query) (db : List Subscription)
    (hne : q.userIdParam ≠ "") (hbad : uuidParse q.userIdParam = none) :
    (SubscriptionHandler.buildFilter uuidParse timeParse q).userId = none ∧
    SubscriptionHandler.GetTotalCost uuidParse timeParse q db =
      SubscriptionHandler.GetTotalCost uuidParse timeParse
        { q with userIdParam := "" } db ∧
    (SubscriptionHandler.GetTotalCost uuidParse timeParse q db).status
      = 200 ∧
    SubscriptionHandler.ListSubscriptions uuidParse timeParse q db =
      SubscriptionHandler.ListSubscriptions uuidParse timeParse
        { q with userIdParam := "" } db := by
  have hfil : SubscriptionHandler.buildFilter uuidParse timeParse q =
      SubscriptionHandler.buildFilter uuidParse timeParse
        { q with userIdParam := "" } := by
    simp [SubscriptionHandler.buildFilter, getUUIDQueryParam, hne, hbad]
  refine ⟨?_, ?_, rfl, ?_⟩
  · simp [SubscriptionHandler.buildFilter, getUUIDQueryParam, hne, hbad]
  · simp only [SubscriptionHandler.GetTotalCost, hfil]
  · simp only [SubscriptionHandler.ListSubscriptions, hfil]

/-- Witness for C10: a concrete request whose `user_id` parameter is the
non-empty, non-UUID text `not-a-uuid`. -/
theorem invalid_user_id_param_silently_unset_witness :
    (SubscriptionHandler.buildFilter uuidParseStub timeParseStub
      qBadUser).userId = none ∧
    SubscriptionHandler.GetTotalCost uuidParseStub timeParseStub qBadUser dbC =
      SubscriptionHandler.GetTotalCost uuidParseStub timeParseStub
        { qBadUser with userIdParam := "" } dbC ∧
    (SubscriptionHandler.GetTotalCost uuidParseStub timeParseStub qBadUser
      dbC).status = 200 ∧
    SubscriptionHandler.ListSubscriptions uuidParseStub timeParseStub qBadUser
      dbC =
      SubscriptionHandler.ListSubscriptions uuidParseStub timeParseStub
        { qBadUser with userIdParam := "" } dbC :=
  invalid_user_id_param_silently_unset uuidParseStub timeParseStub qBadUser dbC
    (by decide) rfl
